import Mathlib

/-!
Shallow embedding of `vrep_bridge.py` (class `VrepBridge` and the helper
`getClonePosRot`).  The simulator's remote API is external to the file
`vrep_bridge.py`; its observable behaviour is modelled by an oracle
`reads : Nat → ReadResult` giving the successive results of
`simxReadStringStream(clientID, 'reply_signal', ...)`, and every method is
embedded as a function returning the list of remote-API effects it performs
(an `Event` trace) together with its Python result.  Python exceptions and
`exit(1)` are embedded in `Except PyErr`.  The unbounded `while True` polling
loop is embedded with an explicit fuel argument; exhausted fuel is the
model-level marker `PyErr.nonterm` for an execution of the loop that has not
returned yet.  Byte strings are `List Nat` (one entry per byte).
-/

/-- Modelled from the spec: the remote API's success return code
(`vrep.simx_return_ok`), which the repository's file only compares against. -/
def simx_return_ok : Int := 0

/-- Result of one `simxReadStringStream` call: the API return code and the
byte string read. -/
structure ReadResult where
  result : Int
  string : List Nat
deriving DecidableEq

/-- Python exceptions and process exits reachable in `vrep_bridge.py`.
`nonterm` is the fuel-exhaustion marker of the embedding, not a Python
exception. -/
inductive PyErr where
  | indexError
  | keyError
  | valueError
  | typeError
  | zeroDivisionError
  | systemExit (code : Nat)
  | nonterm
deriving DecidableEq

/-- Observable remote-API effects (plus the error/critical log calls that the
claims mention) of the methods of `VrepBridge`.  Pure debug/info logging is
omitted. -/
inductive Event where
  | writeStream (name : String) (data : List Nat)
  | readStream (name : String)
  | logError (msg : String)
  | logCritical (msg : String)
  | simxFinish (clientID : Int)
  | simxStart
  | getObjectHandle (name : String)
  | copyPaste (handles : List Int)
  | setObjectPosition (handle relTo : Int) (position : List ℚ)
  | setObjectOrientation (handle relTo : Int) (rotation : List ℚ)
  | removeModel (handle : Int)
deriving DecidableEq

/-- Does an event write a string stream?  (Used to count the writes a method
performs.) -/
def isWriteEvent : Event → Bool
  | Event.writeStream _ _ => true
  | _ => false

/-- Does an event copy-paste objects? -/
def isCopyPasteEvent : Event → Bool
  | Event.copyPaste _ => true
  | _ => false

/-- Does an event remove a model from the scene? -/
def isRemoveEvent : Event → Bool
  | Event.removeModel _ => true
  | _ => false

/-- Modelled from the spec: the remote API's packing of one integer into four
little-endian bytes (two's complement), as used by `simxPackInts`. -/
def packInt32 (x : Int) : List Nat :=
  let v := (x % (2 ^ 32)).toNat
  [v % 256, v / 256 % 256, v / 256 ^ 2 % 256, v / 256 ^ 3 % 256]

/-- Modelled from the spec: `vrep.simxPackInts`, packing an integer array into
a byte string, four little-endian bytes per integer. -/
def simxPackInts (xs : List Int) : List Nat :=
  (xs.map packInt32).flatten

/-- Two's-complement reading of a 32-bit unsigned value. -/
def toSigned32 (v : Nat) : Int :=
  if v < 2 ^ 31 then (v : Int) else (v : Int) - 2 ^ 32

/-- Modelled from the spec: `vrep.simxUnpackInts`, unpacking each group of four
little-endian bytes into a signed integer; trailing bytes (fewer than four) are
ignored. -/
def simxUnpackInts : List Nat → List Int
  | b0 :: b1 :: b2 :: b3 :: rest =>
      toSigned32 (b0 + 256 * b1 + 256 ^ 2 * b2 + 256 ^ 3 * b3) :: simxUnpackInts rest
  | _ => []

/-- Python `bytes.split(sep)` for a one-byte separator: every occurrence
splits, empty parts are kept, and the empty string splits into `[[]]`. -/
def splitOnByte (sep : Nat) : List Nat → List (List Nat)
  | [] => [[]]
  | b :: rest =>
    let r := splitOnByte sep rest
    if b = sep then [] :: r
    else
      match r with
      | [] => [[b]]
      | p :: ps => (b :: p) :: ps

/-- ASCII whitespace, as stripped by Python `int()` on a byte string. -/
def isSpaceByte (b : Nat) : Bool :=
  b == 32 || b == 9 || b == 10 || b == 13 || b == 11 || b == 12

/-- Strip ASCII whitespace from both ends of a byte string. -/
def pyStrip (l : List Nat) : List Nat :=
  ((l.dropWhile isSpaceByte).reverse.dropWhile isSpaceByte).reverse

/-- Decimal value of a nonempty all-digit byte string (accumulator form). -/
def digitsValAux : Nat → List Nat → Option Nat
  | acc, [] => some acc
  | acc, b :: rest =>
      if 48 ≤ b ∧ b ≤ 57 then digitsValAux (acc * 10 + (b - 48)) rest else none

/-- Decimal value of a nonempty all-digit byte string; `none` on the empty
string or any non-digit byte. -/
def digitsVal : List Nat → Option Nat
  | [] => none
  | b :: rest => digitsValAux 0 (b :: rest)

/-- Python `int()` applied to an ASCII byte string: whitespace is stripped, an
optional sign is read, the rest must be a nonempty run of decimal digits;
`none` models the `ValueError` raised otherwise. -/
def parsePyInt (l : List Nat) : Option Int :=
  match pyStrip l with
  | 45 :: ds => (digitsVal ds).map (fun n => -(n : Int))
  | 43 :: ds => (digitsVal ds).map (fun n => (n : Int))
  | ds => (digitsVal ds).map (fun n => (n : Int))

/-- The loop condition of `__waitForCmdReply`: the read succeeded
(`result == vrep.simx_return_ok`) and the string read is nonempty
(`len(string) > 0`). -/
def isGoodReply (r : ReadResult) : Bool :=
  r.result == simx_return_ok && decide (0 < r.string.length)

/-- The `while True` polling loop of `__waitForCmdReply`, reading
`reply_signal` at successive oracle positions starting at `i`, with explicit
fuel.  Returns the trace of reads performed and the string returned, `none`
when the fuel runs out before a good reply. -/
def waitLoop (reads : Nat → ReadResult) : Nat → Nat → List Event × Option (List Nat)
  | _, 0 => ([], none)
  | i, fuel + 1 =>
    let r := reads i
    if isGoodReply r then ([Event.readStream "reply_signal"], some r.string)
    else
      let rest := waitLoop reads (i + 1) fuel
      (Event.readStream "reply_signal" :: rest.1, rest.2)

/-- `VrepBridge.__waitForCmdReply`: poll `reply_signal` from the start of the
oracle. -/
def waitForCmdReply (reads : Nat → ReadResult) (fuel : Nat) :
    List Event × Option (List Nat) :=
  waitLoop reads 0 fuel

/-- `VrepBridge.sendSignal`: pack `params`, write the packed data to the
`signal` string stream once, then wait for a command reply. -/
def sendSignal (reads : Nat → ReadResult) (params : List Int) (fuel : Nat) :
    List Event × Option (List Nat) :=
  let w := waitForCmdReply reads fuel
  (Event.writeStream "signal" (simxPackInts params) :: w.1, w.2)

/-- Signal type `SignalType.getState`. -/
def SignalType.getState : Int := 1

/-- Signal type `SignalType.setState`. -/
def SignalType.setState : Int := 2

/-- Signal type `SignalType.getKnownRobotIds`. -/
def SignalType.getKnownRobotIds : Int := 3

/-- Outgoing signal array index `IndexSignalSend.type`. -/
def IndexSignalSend.type : Nat := 0

/-- Outgoing signal array index `IndexSignalSend.uid`. -/
def IndexSignalSend.uid : Nat := 1

/-- Outgoing signal array index `IndexSignalSend.motion`. -/
def IndexSignalSend.motion : Nat := 2

/-- Outgoing signal array index `IndexSignalSend.led_r`. -/
def IndexSignalSend.led_r : Nat := 3

/-- Outgoing signal array index `IndexSignalSend.led_g`. -/
def IndexSignalSend.led_g : Nat := 4

/-- Outgoing signal array index `IndexSignalSend.led_b`. -/
def IndexSignalSend.led_b : Nat := 5

/-- Incoming signal array index `IndexSignalReceive.uid`. -/
def IndexSignalReceive.uid : Nat := 0

/-- Incoming signal array index `IndexSignalReceive.ambient_light`. -/
def IndexSignalReceive.ambient_light : Nat := 1

/-- The request array built by `getState`: `send = [-1] * 2`, then
`send[IndexSignalSend.type] = SignalType.getState` and
`send[IndexSignalSend.uid] = uid`. -/
def getStateSend (uid : Int) : List Int :=
  (([-1, -1].set IndexSignalSend.type SignalType.getState).set IndexSignalSend.uid uid)

/-- The request array built by `getKnownRobotIds`. -/
def getKnownSend (uid : Int) : List Int :=
  (([-1, -1].set IndexSignalSend.type SignalType.getKnownRobotIds).set IndexSignalSend.uid uid)

/-- The request array built by `setState`: `send = [-1] * 6` followed by the
six indexed assignments. -/
def setStateSend (uid motion r g b : Int) : List Int :=
  ((((([-1, -1, -1, -1, -1, -1].set IndexSignalSend.type SignalType.setState).set
      IndexSignalSend.uid uid).set IndexSignalSend.motion motion).set
      IndexSignalSend.led_r r).set IndexSignalSend.led_g g).set IndexSignalSend.led_b b

/-- Python dict assignment `d[k] = v`: update in place when the key is
present, append otherwise (CPython insertion order). -/
def dictInsert (d : List (Int × Int)) (k v : Int) : List (Int × Int) :=
  if (d.map Prod.fst).contains k then
    d.map (fun p => if p.1 = k then (p.1, v) else p)
  else d ++ [(k, v)]

/-- The dict comprehension of `getState`,
`{recv[1][i]: recv[2][i] for i in range(len(recv[1]))}`: `ks` is the part of
`recv[1]` still to process, `i` the current index, `d` the dict built so far;
`recv[2][i]` is looked up per iteration, `IndexError` when it is missing. -/
def buildLoop (recv : List (List Int)) : List Int → Nat → List (Int × Int) →
    Except PyErr (List (Int × Int))
  | [], _, d => Except.ok d
  | k :: ks, i, d =>
    match (recv.get? 2).bind (fun l => l.get? i) with
    | none => Except.error PyErr.indexError
    | some v => buildLoop recv ks (i + 1) (dictInsert d k v)

/-- The distances dictionary of `getState`, built from the unpacked reply
parts `recv`; `IndexError` when `recv[1]` is missing. -/
def buildDistances (recv : List (List Int)) : Except PyErr (List (Int × Int)) :=
  match recv.get? 1 with
  | none => Except.error PyErr.indexError
  | some keys => buildLoop recv keys 0 []

/-- Python `del d[k]`: `KeyError` when the key is absent. -/
def pyDictDel (d : List (Int × Int)) (k : Int) : Except PyErr (List (Int × Int)) :=
  if (d.map Prod.fst).contains k then Except.ok (d.filter (fun p => p.1 != k))
  else Except.error PyErr.keyError

/-- Python `l.remove(x)`: remove the first occurrence, `ValueError` when `x`
is absent. -/
def pyListRemove (l : List Int) (x : Int) : Except PyErr (List Int) :=
  if l.contains x then Except.ok (l.erase x) else Except.error PyErr.valueError

/-- The uid field `recv[0][IndexSignalReceive.uid]` of a `getState` reply,
after splitting on `b'|'` and unpacking every part. -/
def getStateReplyUid (raw : List Nat) : Option Int :=
  (((splitOnByte 124 raw).map simxUnpackInts).get? 0).bind
    (fun l => l.get? IndexSignalReceive.uid)

/-- The uid field `int(recv[IndexSignalReceive.uid])` of a `getKnownRobotIds`
reply, after splitting on `b'|'`. -/
def knownIdsReplyUid (raw : List Nat) : Option Int :=
  ((splitOnByte 124 raw).get? IndexSignalReceive.uid).bind parsePyInt

/-- The structured dictionary returned by `getState`: it has exactly the keys
`uid`, `light` and `distances`. -/
structure GetStateOut where
  uid : Int
  light : Int
  distances : List (Int × Int)
deriving DecidableEq

/-- Reply processing of `getState` on the raw reply bytes: split on `b'|'`,
unpack every part, check the reply uid (critical log and `exit(1)` on
mismatch), build the distances dictionary, delete the requested uid from it,
and assemble the result dictionary. -/
def getStateProcess (uid : Int) (raw : List Nat) :
    List Event × Except PyErr GetStateOut :=
  match getStateReplyUid raw with
  | none => ([], Except.error PyErr.indexError)
  | some u =>
    if u = uid then
      match buildDistances ((splitOnByte 124 raw).map simxUnpackInts) with
      | Except.error e => ([], Except.error e)
      | Except.ok d0 =>
        match pyDictDel d0 uid with
        | Except.error e => ([], Except.error e)
        | Except.ok d =>
          match (((splitOnByte 124 raw).map simxUnpackInts).get? 0).bind
              (fun l => l.get? IndexSignalReceive.ambient_light) with
          | none => ([], Except.error PyErr.indexError)
          | some light => ([], Except.ok ⟨u, light, d⟩)
    else
      ([Event.logCritical "received the state from the wrong robot"],
        Except.error (PyErr.systemExit 1))

/-- `VrepBridge.getState`: send the `[SignalType.getState, uid]` request and
process the reply. -/
def getState (reads : Nat → ReadResult) (uid : Int) (fuel : Nat) :
    List Event × Except PyErr GetStateOut :=
  let s := sendSignal reads (getStateSend uid) fuel
  match s.2 with
  | none => (s.1, Except.error PyErr.nonterm)
  | some raw =>
    let p := getStateProcess uid raw
    (s.1 ++ p.1, p.2)

/-- Reply processing of `getKnownRobotIds` on the raw reply bytes: split on
`b'|'`, parse `recv[0]` with `int()`, unpack `recv[1]`, check the reply uid
(critical log and `exit(1)` on mismatch), then `recv[1].remove(uid)`. -/
def getKnownProcess (uid : Int) (raw : List Nat) :
    List Event × Except PyErr (List Int) :=
  match (splitOnByte 124 raw).get? IndexSignalReceive.uid with
  | none => ([], Except.error PyErr.indexError)
  | some p0 =>
    match parsePyInt p0 with
    | none => ([], Except.error PyErr.valueError)
    | some u =>
      match (splitOnByte 124 raw).get? 1 with
      | none => ([], Except.error PyErr.indexError)
      | some p1 =>
        let ids := simxUnpackInts p1
        if u = uid then
          match pyListRemove ids uid with
          | Except.error e => ([], Except.error e)
          | Except.ok rest => ([], Except.ok rest)
        else
          ([Event.logCritical "received the state from the wrong robot"],
            Except.error (PyErr.systemExit 1))

/-- `VrepBridge.getKnownRobotIds`: send the
`[SignalType.getKnownRobotIds, uid]` request and process the reply. -/
def getKnownRobotIds (reads : Nat → ReadResult) (uid : Int) (fuel : Nat) :
    List Event × Except PyErr (List Int) :=
  let s := sendSignal reads (getKnownSend uid) fuel
  match s.2 with
  | none => (s.1, Except.error PyErr.nonterm)
  | some raw =>
    let p := getKnownProcess uid raw
    (s.1 ++ p.1, p.2)

/-- `VrepBridge.setState`: read `light[0]`, `light[1]`, `light[2]`
(`IndexError` when the list is shorter), build the six-element request array,
send it, and unpack the reply. -/
def setState (reads : Nat → ReadResult) (uid motion : Int) (light : List Int)
    (fuel : Nat) : List Event × Except PyErr (List Int) :=
  match light.get? 0, light.get? 1, light.get? 2 with
  | some r, some g, some b =>
    let s := sendSignal reads (setStateSend uid motion r g b) fuel
    match s.2 with
    | none => (s.1, Except.error PyErr.nonterm)
    | some reply => (s.1, Except.ok (simxUnpackInts reply))
  | _, _, _ => ([], Except.error PyErr.indexError)

/-- Spawn dispersion type `SpawnType.ox_plus`. -/
def SpawnType.ox_plus : Int := 1

/-- Spawn dispersion type `SpawnType.oy_plus`. -/
def SpawnType.oy_plus : Int := 2

/-- Spawn dispersion type `SpawnType.circular`. -/
def SpawnType.circular : Int := 3

/-- The helper `getClonePosRot`.  Python floats are embedded as exact
rationals, and the transcendental functions of the `circular` branch
(`math.pi`, `math.sin`, `math.cos`) are taken as oracle parameters `pi`,
`sin`, `cos`; the `numpy.dot` of `[0, 0.061 * (nr / 10)]` with the rotation
matrix is written out componentwise.  On the `circular` branch the Python
true division `stepNr / nr` raises `ZeroDivisionError` when `nr = 0`, so the
function returns in `Except PyErr`. -/
def getClonePosRot (pi : ℚ) (sin cos : ℚ → ℚ) (stepNr nr : Int)
    (spawnType : Int) : Except PyErr (List ℚ × List ℚ) :=
  if spawnType = SpawnType.ox_plus then
    Except.ok ([((stepNr : ℚ) + 1) * (0.05 : ℚ), 0, 0], [0, 0, 0])
  else if spawnType = SpawnType.oy_plus then
    Except.ok ([0, ((stepNr : ℚ) + 1) * (0.05 : ℚ), 0], [0, 0, 0])
  else if spawnType = SpawnType.circular then
    if nr = 0 then Except.error PyErr.zeroDivisionError
    else
      let angle := (((stepNr : ℚ) / (nr : ℚ)) * 360) * pi / 180
      let d := (0.061 : ℚ) * ((nr : ℚ) / 10)
      Except.ok ([(0 : ℚ) * cos angle + d * sin angle,
        (0 : ℚ) * (-(sin angle)) + d * cos angle, 0], [0, 0, 0])
  else Except.ok ([0, 0, 0], [0, 0, 0])

/-- Oracle for `spawnRobots`: the handle returned by `simxGetObjectHandle`
for the source robot, and the handle list returned by the `i`-th
`simxCopyPasteObjects` call. -/
structure SpawnEnv where
  getObjectHandleResult : Int
  copyPasteResults : Nat → List Int

/-- The loop body of `spawnRobots`, iterating `for i in range(nr)` with `k`
iterations left: copy-paste the source, append `auxhandles[0]` (`IndexError`
when the returned handle list is empty), then set the clone's position
relative to the source robot and its orientation relative to itself, both
from `getClonePosRot(i, nr, spawnType)`; an exception raised there (the
`ZeroDivisionError` of the `circular` branch at `nr = 0`) propagates. -/
def spawnLoop (env : SpawnEnv) (pi : ℚ) (sin cos : ℚ → ℚ) (spawnType : Int)
    (nr : Int) (sourceHandle : Int) :
    Nat → Nat → List Int → List Event × Except PyErr (List Int)
  | _, 0, handles => ([], Except.ok handles)
  | i, k + 1, handles =>
    let aux := env.copyPasteResults i
    match aux.get? 0 with
    | none => ([Event.copyPaste aux], Except.error PyErr.indexError)
    | some h0 =>
      match getClonePosRot pi sin cos (i : Int) nr spawnType with
      | Except.error e => ([Event.copyPaste aux], Except.error e)
      | Except.ok pr =>
        let rest := spawnLoop env pi sin cos spawnType nr sourceHandle (i + 1) k
          (handles ++ [h0])
        (Event.copyPaste aux ::
          Event.setObjectPosition h0 sourceHandle pr.1 ::
          Event.setObjectOrientation h0 h0 pr.2 :: rest.1, rest.2)

/-- `VrepBridge.spawnRobots`: look up the source robot's handle, then clone
and place `nr` robots; `handles0` is the `clonedRobotHandles` list before the
call, and the returned list is that field after the call. -/
def spawnRobots (env : SpawnEnv) (pi : ℚ) (sin cos : ℚ → ℚ)
    (sourceRobotName : String) (nr : Nat) (spawnType : Int)
    (handles0 : List Int) : List Event × Except PyErr (List Int) :=
  let sourceHandle := env.getObjectHandleResult
  let l := spawnLoop env pi sin cos spawnType (nr : Int) sourceHandle 0 nr handles0
  (Event.getObjectHandle sourceRobotName :: l.1, l.2)

/-- `VrepBridge.removeRobots`: return immediately when `clonedRobotHandles`
is empty, else issue one `simxRemoveModel` per stored handle; the stored list
itself is never modified, so the second component (the field after the call)
is always the input list. -/
def removeRobots (handles : List Int) : List Event × List Int :=
  if handles.length ≤ 0 then ([], handles)
  else (handles.map Event.removeModel, handles)

/-- The state a successfully constructed `VrepBridge` holds: the client id
returned by `simxStart` and the `clonedRobotHandles` list. -/
structure BridgeState where
  clientID : Int
  clonedRobotHandles : List Int
deriving DecidableEq

/-- `VrepBridge.__init__`: close stale connections, connect, and on a
`simxStart` result of `-1` log an error and `raise()` (which raises a
`TypeError`, as `()` is not an exception) instead of returning; on success
the bridge state holds the returned client id and an empty
`clonedRobotHandles` list. -/
def initBridge (startResult : Int) : List Event × Except PyErr BridgeState :=
  if startResult = -1 then
    ([Event.simxFinish (-1), Event.simxStart,
      Event.logError "Failed connecting to remote API server"],
      Except.error PyErr.typeError)
  else
    ([Event.simxFinish (-1), Event.simxStart], Except.ok ⟨startResult, []⟩)

/-- Example reply for `getState`-shaped exchanges: uid `1`, ambient light
`7`, distance keys `[1, 2]`, distance values `[0, 5]`, parts joined by
`b'|'` (byte 124). -/
def exReply1 : List Nat :=
  simxPackInts [1, 7] ++ [124] ++ simxPackInts [1, 2] ++ [124] ++ simxPackInts [0, 5]

/-- Example oracle that always answers `exReply1` with `simx_return_ok`. -/
def exReads1 : Nat → ReadResult := fun _ => ⟨0, exReply1⟩

/-- Example reply for `getKnownRobotIds`-shaped exchanges: uid `1` in ASCII
decimal, then the packed id list `[1, 2, 3]`. -/
def exReply2 : List Nat := [49] ++ [124] ++ simxPackInts [1, 2, 3]

/-- Example oracle that always answers `exReply2` with `simx_return_ok`. -/
def exReads2 : Nat → ReadResult := fun _ => ⟨0, exReply2⟩

/-- Example spawn oracle: source handle `10`, the `i`-th copy-paste returns
the one-element handle list `[100 + i]`. -/
def exSpawnEnv : SpawnEnv := ⟨10, fun i => [100 + (i : Int)]⟩

/-- One step of the polling loop, unfolded. -/
theorem waitLoop_succ (reads : Nat → ReadResult) (i fuel : Nat) :
    waitLoop reads i (fuel + 1) =
      if isGoodReply (reads i) then
        ([Event.readStream "reply_signal"], some (reads i).string)
      else
        (Event.readStream "reply_signal" :: (waitLoop reads (i + 1) fuel).1,
          (waitLoop reads (i + 1) fuel).2) := by
  simp [waitLoop]

/-- The polling loop returns a value within its fuel exactly when a good
reply occurs within its fuel window. -/
theorem waitLoop_isSome_iff (reads : Nat → ReadResult) :
    ∀ fuel i, ((waitLoop reads i fuel).2).isSome = true ↔
      ∃ n, i ≤ n ∧ n < i + fuel ∧ isGoodReply (reads n) = true := by
  intro fuel
  induction fuel with
  | zero =>
    intro i
    simp [waitLoop]
    omega
  | succ fuel ih =>
    intro i
    rw [waitLoop_succ]
    by_cases hg : isGoodReply (reads i)
    · simp [hg]
      exact ⟨i, le_refl i, by omega, hg⟩
    · simp [hg, ih (i + 1)]
      constructor
      · rintro ⟨n, h1, h2, h3⟩
        exact ⟨n, by omega, by omega, h3⟩
      · rintro ⟨n, h1, h2, h3⟩
        refine ⟨n, ?_, by omega, h3⟩
        rcases Nat.eq_or_lt_of_le h1 with rfl | h
        · rw [h3] at hg
          exact absurd rfl hg
        · omega

/-- When the polling loop returns a string, it is the string of the first
good reply at or after the loop's start position. -/
theorem waitLoop_some (reads : Nat → ReadResult) :
    ∀ fuel i s, (waitLoop reads i fuel).2 = some s →
      ∃ n, i ≤ n ∧ isGoodReply (reads n) = true ∧
        (∀ m, i ≤ m → m < n → isGoodReply (reads m) = false) ∧
        s = (reads n).string := by
  intro fuel
  induction fuel with
  | zero => intro i s h; simp [waitLoop] at h
  | succ fuel ih =>
    intro i s h
    rw [waitLoop_succ] at h
    by_cases hg : isGoodReply (reads i)
    · simp [hg] at h
      exact ⟨i, le_refl i, hg, fun m h1 h2 => by omega, h.symm⟩
    · simp [hg] at h
      obtain ⟨n, h1, h2, h3, h4⟩ := ih (i + 1) s h
      refine ⟨n, by omega, h2, ?_, h4⟩
      intro m hm1 hm2
      rcases Nat.eq_or_lt_of_le hm1 with rfl | hlt
      · simpa using hg
      · exact h3 m hlt hm2

/-- When no good reply ever occurs, the polling loop returns nothing at any
fuel. -/
theorem waitLoop_none (reads : Nat → ReadResult)
    (hall : ∀ n, isGoodReply (reads n) = false) :
    ∀ fuel i, (waitLoop reads i fuel).2 = none := by
  intro fuel
  induction fuel with
  | zero => intro i; simp [waitLoop]
  | succ fuel ih =>
    intro i
    rw [waitLoop_succ]
    simp [hall i, ih (i + 1)]

/-- The polling loop performs no stream writes. -/
theorem waitLoop_no_writes (reads : Nat → ReadResult) :
    ∀ fuel i, (waitLoop reads i fuel).1.filter isWriteEvent = [] := by
  intro fuel
  induction fuel with
  | zero => intro i; simp [waitLoop]
  | succ fuel ih =>
    intro i
    rw [waitLoop_succ]
    by_cases hg : isGoodReply (reads i) <;> simp [hg, isWriteEvent, ih (i + 1)]

/-- A good reply has a success result code and a nonempty string. -/
theorem isGoodReply_iff (r : ReadResult) :
    isGoodReply r = true ↔ r.result = simx_return_ok ∧ 0 < r.string.length := by
  simp [isGoodReply]

/-- C1: for every params list, `sendSignal(params)` writes the packed-integer
encoding of params to the `signal` string stream exactly once (the write also
precedes every read of the wait loop), and any value it returns is the string
of the first read of `reply_signal` whose result is `simx_return_ok` and
whose string is nonempty — hence a nonempty string. -/
theorem sendSignal_writes_once_and_returns_first_good_reply
    (reads : Nat → ReadResult) (params : List Int) (fuel : Nat) :
    (sendSignal reads params fuel).1.filter isWriteEvent =
        [Event.writeStream "signal" (simxPackInts params)] ∧
    (sendSignal reads params fuel).1.head? =
        some (Event.writeStream "signal" (simxPackInts params)) ∧
    ∀ s, (sendSignal reads params fuel).2 = some s →
      ∃ n, isGoodReply (reads n) = true ∧
        (∀ m, m < n → isGoodReply (reads m) = false) ∧
        s = (reads n).string ∧ 0 < s.length := by
  refine ⟨?_, ?_, ?_⟩
  · simp [sendSignal, waitForCmdReply, isWriteEvent,
      waitLoop_no_writes reads fuel 0]
  · simp [sendSignal]
  · intro s h
    have h' : (waitLoop reads 0 fuel).2 = some s := h
    obtain ⟨n, _, hg, hmin, hs⟩ := waitLoop_some reads fuel 0 s h'
    refine ⟨n, hg, fun m hm => hmin m (Nat.zero_le m) hm, hs, ?_⟩
    rw [hs]
    exact ((isGoodReply_iff (reads n)).mp hg).2

/-- C1 witness: the oracle `exReads1` answers with a good reply at once, and
the specification holds there. -/
theorem sendSignal_writes_once_witness :
    (sendSignal exReads1 [1, 2] 1).1.filter isWriteEvent =
        [Event.writeStream "signal" (simxPackInts [1, 2])] ∧
    (sendSignal exReads1 [1, 2] 1).1.head? =
        some (Event.writeStream "signal" (simxPackInts [1, 2])) ∧
    ∀ s, (sendSignal exReads1 [1, 2] 1).2 = some s →
      ∃ n, isGoodReply (exReads1 n) = true ∧
        (∀ m, m < n → isGoodReply (exReads1 m) = false) ∧
        s = (exReads1 n).string ∧ 0 < s.length :=
  sendSignal_writes_once_and_returns_first_good_reply exReads1 [1, 2] 1

/-- C2: the polling wait loop `__waitForCmdReply` returns a value at some
fuel exactly when some read of `reply_signal` yields `simx_return_ok` with a
nonempty string; whenever it returns, it returns the string of the first such
read; and when no such read ever occurs, it returns nothing at every fuel
(it loops forever). -/
theorem waitForCmdReply_poll_characterization (reads : Nat → ReadResult) :
    ((∃ fuel, ((waitForCmdReply reads fuel).2).isSome = true) ↔
      (∃ n, isGoodReply (reads n) = true)) ∧
    (∀ fuel s, (waitForCmdReply reads fuel).2 = some s →
      ∃ n, isGoodReply (reads n) = true ∧
        (∀ m, m < n → isGoodReply (reads m) = false) ∧ s = (reads n).string) ∧
    ((∀ n, isGoodReply (reads n) = false) →
      ∀ fuel, (waitForCmdReply reads fuel).2 = none) := by
  refine ⟨⟨?_, ?_⟩, ?_, ?_⟩
  · rintro ⟨fuel, hsome⟩
    obtain ⟨n, _, _, hg⟩ := (waitLoop_isSome_iff reads fuel 0).mp hsome
    exact ⟨n, hg⟩
  · rintro ⟨n, hg⟩
    refine ⟨n + 1, (waitLoop_isSome_iff reads (n + 1) 0).mpr ?_⟩
    exact ⟨n, Nat.zero_le n, by omega, hg⟩
  · intro fuel s h
    obtain ⟨n, _, hg, hmin, hs⟩ := waitLoop_some reads fuel 0 s h
    exact ⟨n, hg, fun m hm => hmin m (Nat.zero_le m) hm, hs⟩
  · intro hall fuel
    exact waitLoop_none reads hall fuel 0

/-- C2 witness: the characterization instantiated at the oracle `exReads1`,
whose first read already is a good reply. -/
theorem waitForCmdReply_poll_witness :
    ((∃ fuel, ((waitForCmdReply exReads1 fuel).2).isSome = true) ↔
      (∃ n, isGoodReply (exReads1 n) = true)) ∧
    (∀ fuel s, (waitForCmdReply exReads1 fuel).2 = some s →
      ∃ n, isGoodReply (exReads1 n) = true ∧
        (∀ m, m < n → isGoodReply (exReads1 m) = false) ∧
        s = (exReads1 n).string) ∧
    ((∀ n, isGoodReply (exReads1 n) = false) →
      ∀ fuel, (waitForCmdReply exReads1 fuel).2 = none) :=
  waitForCmdReply_poll_characterization exReads1

/-- Every `sendSignal` call performs exactly one stream write, of the packed
request. -/
theorem sendSignal_filter_writes (reads : Nat → ReadResult) (params : List Int)
    (fuel : Nat) :
    (sendSignal reads params fuel).1.filter isWriteEvent =
      [Event.writeStream "signal" (simxPackInts params)] := by
  simp [sendSignal, waitForCmdReply, isWriteEvent, waitLoop_no_writes reads fuel 0]

/-- With a three-element light list, `setState` performs the same trace as
sending its six-element request array. -/
theorem setState_trace (reads : Nat → ReadResult) (uid motion r g b : Int)
    (fuel : Nat) :
    (setState reads uid motion [r, g, b] fuel).1 =
      (sendSignal reads (setStateSend uid motion r g b) fuel).1 := by
  unfold setState
  cases h : (sendSignal reads (setStateSend uid motion r g b) fuel).2 <;> simp [h]

/-- C5: `setState(uid, motion, light)` packs and sends exactly the fixed-size
six-element array `[SignalType.setState, uid, motion, light[0], light[1],
light[2]]`, with `SignalType.setState = 2` at index 0, uid at index 1, motion
at index 2 and the LED components at indexes 3, 4, 5, as given by
`IndexSignalSend`. -/
theorem setState_sends_fixed_six_element_array
    (reads : Nat → ReadResult) (uid motion r g b : Int) (fuel : Nat) :
    setStateSend uid motion r g b =
      [SignalType.setState, uid, motion, r, g, b] ∧
    (setStateSend uid motion r g b).length = 6 ∧
    SignalType.setState = 2 ∧
    (setStateSend uid motion r g b).get? IndexSignalSend.type =
      some SignalType.setState ∧
    (setStateSend uid motion r g b).get? IndexSignalSend.uid = some uid ∧
    (setStateSend uid motion r g b).get? IndexSignalSend.motion = some motion ∧
    (setStateSend uid motion r g b).get? IndexSignalSend.led_r = some r ∧
    (setStateSend uid motion r g b).get? IndexSignalSend.led_g = some g ∧
    (setStateSend uid motion r g b).get? IndexSignalSend.led_b = some b ∧
    (setState reads uid motion [r, g, b] fuel).1.filter isWriteEvent =
      [Event.writeStream "signal"
        (simxPackInts [SignalType.setState, uid, motion, r, g, b])] := by
  refine ⟨rfl, rfl, rfl, rfl, rfl, rfl, rfl, rfl, rfl, ?_⟩
  rw [setState_trace reads uid motion r g b fuel]
  exact sendSignal_filter_writes reads (setStateSend uid motion r g b) fuel

/-- C5 witness: the six-element request at a concrete state. -/
theorem setState_sends_witness :
    setStateSend 4 1 0 2 0 = [SignalType.setState, 4, 1, 0, 2, 0] ∧
    (setState exReads1 4 1 [0, 2, 0] 1).1.filter isWriteEvent =
      [Event.writeStream "signal" (simxPackInts [SignalType.setState, 4, 1, 0, 2, 0])] :=
  ⟨(setState_sends_fixed_six_element_array exReads1 4 1 0 2 0 1).1,
   (setState_sends_fixed_six_element_array exReads1 4 1 0 2 0 1).2.2.2.2.2.2.2.2.2⟩

/-- C7: `__init__` handles a failed connection only by logging and aborting:
a `simxStart` result of `-1` yields an error log and a raised exception, and
any other result yields a bridge state holding the returned client id and an
empty `clonedRobotHandles` list. -/
theorem initBridge_failure_handling (startResult : Int) :
    (startResult = -1 →
      (initBridge startResult).2 = Except.error PyErr.typeError ∧
      Event.logError "Failed connecting to remote API server" ∈
        (initBridge startResult).1) ∧
    (startResult ≠ -1 →
      (initBridge startResult).2 =
        Except.ok ⟨startResult, ([] : List Int)⟩) := by
  constructor
  · rintro rfl
    refine ⟨by simp [initBridge], ?_⟩
    simp [initBridge]
  · intro h
    simp [initBridge, h]

/-- C7 witness: the failure branch at `simxStart` result `-1` and the success
branch at result `0`. -/
theorem initBridge_failure_witness :
    ((initBridge (-1)).2 = Except.error PyErr.typeError ∧
      Event.logError "Failed connecting to remote API server" ∈
        (initBridge (-1)).1) ∧
    (initBridge 0).2 = Except.ok ⟨0, ([] : List Int)⟩ :=
  ⟨(initBridge_failure_handling (-1)).1 rfl,
   (initBridge_failure_handling 0).2 (by decide)⟩

/-- Removal events of a mapped handle list are the list itself. -/
theorem filter_isRemove_map (l : List Int) :
    (l.map Event.removeModel).filter isRemoveEvent = l.map Event.removeModel := by
  induction l with
  | nil => rfl
  | cons a l ih => simp [isRemoveEvent, ih]

/-- C8: `removeRobots()` on an empty `clonedRobotHandles` list issues no
remove call; in every case the handle list itself is left unchanged, it
issues one remove per stored handle, and a repeated call issues the same
removes again. -/
theorem removeRobots_empty_noop_and_preserves_handles (handles : List Int) :
    (removeRobots ([] : List Int)).1 = [] ∧
    (removeRobots handles).2 = handles ∧
    (removeRobots handles).1.filter isRemoveEvent =
      handles.map Event.removeModel ∧
    (removeRobots (removeRobots handles).2).1 = (removeRobots handles).1 := by
  have h2 : (removeRobots handles).2 = handles := by
    unfold removeRobots
    split <;> rfl
  refine ⟨rfl, h2, ?_, by rw [h2]⟩
  unfold removeRobots
  split
  · next h =>
    have : handles = [] := List.length_eq_zero.mp (Nat.le_zero.mp h)
    simp [this]
  · exact filter_isRemove_map handles

/-- C8 witness: no remove call on the empty list, and one remove per handle
on a concrete two-element list. -/
theorem removeRobots_witness :
    (removeRobots ([] : List Int)).1 = [] ∧
    (removeRobots [7, 9]).2 = [7, 9] ∧
    (removeRobots [7, 9]).1.filter isRemoveEvent =
      [Event.removeModel 7, Event.removeModel 9] :=
  ⟨(removeRobots_empty_noop_and_preserves_handles []).1,
   (removeRobots_empty_noop_and_preserves_handles [7, 9]).2.1,
   (removeRobots_empty_noop_and_preserves_handles [7, 9]).2.2.1⟩

/-- C9 counterexample: at spawn type `circular` with `nr = 0` the program
raises `ZeroDivisionError` (from the true division `stepNr / nr`) instead of
returning a position-rotation pair, so `getClonePosRot` does not return
rotation `[0, 0, 0]` for every `stepNr`, `nr` and spawn type. -/
theorem getClonePosRot_circular_zero_counterexample :
    getClonePosRot 0 (fun _ => 0) (fun _ => 0) 0 0 SpawnType.circular =
      Except.error PyErr.zeroDivisionError := by
  norm_num [getClonePosRot, SpawnType.circular, SpawnType.ox_plus,
    SpawnType.oy_plus]

/-- C9 (amended): whenever `getClonePosRot` returns, its rotation is exactly
`[0, 0, 0]` — it fails to return only at spawn type `circular` with `nr = 0`,
where it raises `ZeroDivisionError`; for `ox_plus` it returns position
`[(stepNr + 1) * 0.05, 0, 0]`, for `oy_plus` position
`[0, (stepNr + 1) * 0.05, 0]`, and for a spawn type that is none of
`ox_plus`, `oy_plus`, `circular` it returns position `[0, 0, 0]`. -/
theorem getClonePosRot_rotation_and_axis_positions
    (pi : ℚ) (sin cos : ℚ → ℚ) (stepNr nr : Int) (spawnType : Int) :
    (∀ pos rot,
      getClonePosRot pi sin cos stepNr nr spawnType = Except.ok (pos, rot) →
      rot = [0, 0, 0]) ∧
    (spawnType = SpawnType.circular → nr = 0 →
      getClonePosRot pi sin cos stepNr nr spawnType =
        Except.error PyErr.zeroDivisionError) ∧
    (spawnType = SpawnType.ox_plus →
      getClonePosRot pi sin cos stepNr nr spawnType =
        Except.ok ([((stepNr : ℚ) + 1) * (0.05 : ℚ), 0, 0], [0, 0, 0])) ∧
    (spawnType = SpawnType.oy_plus →
      getClonePosRot pi sin cos stepNr nr spawnType =
        Except.ok ([0, ((stepNr : ℚ) + 1) * (0.05 : ℚ), 0], [0, 0, 0])) ∧
    (spawnType ≠ SpawnType.ox_plus → spawnType ≠ SpawnType.oy_plus →
      spawnType ≠ SpawnType.circular →
      getClonePosRot pi sin cos stepNr nr spawnType =
        Except.ok ([0, 0, 0], [0, 0, 0])) := by
  refine ⟨?_, ?_, ?_, ?_, ?_⟩
  · intro pos rot h
    unfold getClonePosRot at h
    by_cases h1 : spawnType = SpawnType.ox_plus
    · rw [if_pos h1] at h
      injection h with h5
      injection h5 with hp hr
      exact hr.symm
    · rw [if_neg h1] at h
      by_cases h2 : spawnType = SpawnType.oy_plus
      · rw [if_pos h2] at h
        injection h with h5
        injection h5 with hp hr
        exact hr.symm
      · rw [if_neg h2] at h
        by_cases h3 : spawnType = SpawnType.circular
        · rw [if_pos h3] at h
          by_cases h4 : nr = 0
          · rw [if_pos h4] at h
            exact Except.noConfusion h
          · rw [if_neg h4] at h
            injection h with h5
            injection h5 with hp hr
            exact hr.symm
        · rw [if_neg h3] at h
          injection h with h5
          injection h5 with hp hr
          exact hr.symm
  · intro h hz
    subst h hz
    norm_num [getClonePosRot, SpawnType.circular, SpawnType.ox_plus,
      SpawnType.oy_plus]
  · intro h
    simp [getClonePosRot, h]
  · intro h
    subst h
    norm_num [getClonePosRot, SpawnType.oy_plus, SpawnType.ox_plus]
  · intro h1 h2 h3
    simp [getClonePosRot, h1, h2, h3]

/-- C9 witness: concrete evaluations at step 3 of 5 robots for `ox_plus` and
for an out-of-range spawn type. -/
theorem getClonePosRot_witness :
    getClonePosRot 0 (fun _ => 0) (fun _ => 0) 3 5 SpawnType.ox_plus =
      Except.ok ([(((3 : Int) : ℚ) + 1) * (0.05 : ℚ), 0, 0], [0, 0, 0]) ∧
    getClonePosRot 0 (fun _ => 0) (fun _ => 0) 3 5 7 =
      Except.ok ([0, 0, 0], [0, 0, 0]) :=
  ⟨(getClonePosRot_rotation_and_axis_positions 0 (fun _ => 0) (fun _ => 0) 3 5
      SpawnType.ox_plus).2.2.1 rfl,
   (getClonePosRot_rotation_and_axis_positions 0 (fun _ => 0) (fun _ => 0) 3 5
      7).2.2.2.2 (by decide) (by decide) (by decide)⟩

/-- When the wait loop yields a reply, `getState` is its send trace followed
by the reply processing. -/
theorem getState_eq_of_reply (reads : Nat → ReadResult) (uid : Int)
    (fuel : Nat) (raw : List Nat)
    (hr : (waitForCmdReply reads fuel).2 = some raw) :
    getState reads uid fuel =
      ((sendSignal reads (getStateSend uid) fuel).1 ++ (getStateProcess uid raw).1,
        (getStateProcess uid raw).2) := by
  have hs : (sendSignal reads (getStateSend uid) fuel).2 = some raw := hr
  simp [getState, hs]

/-- When the wait loop yields a reply, `getKnownRobotIds` is its send trace
followed by the reply processing. -/
theorem getKnown_eq_of_reply (reads : Nat → ReadResult) (uid : Int)
    (fuel : Nat) (raw : List Nat)
    (hr : (waitForCmdReply reads fuel).2 = some raw) :
    getKnownRobotIds reads uid fuel =
      ((sendSignal reads (getKnownSend uid) fuel).1 ++ (getKnownProcess uid raw).1,
        (getKnownProcess uid raw).2) := by
  have hs : (sendSignal reads (getKnownSend uid) fuel).2 = some raw := hr
  simp [getKnownRobotIds, hs]

/-- On a decoded reply uid different from the requested one, `getState`'s
reply processing logs critically and exits with code 1. -/
theorem getStateProcess_mismatch (uid u : Int) (raw : List Nat)
    (hu : getStateReplyUid raw = some u) (hne : u ≠ uid) :
    getStateProcess uid raw =
      ([Event.logCritical "received the state from the wrong robot"],
        Except.error (PyErr.systemExit 1)) := by
  unfold getStateProcess
  rw [hu]
  simp [hne]

/-- `getState`'s reply processing returns a value only when the decoded reply
uid is the requested one. -/
theorem getStateProcess_ok_uid (uid : Int) (raw : List Nat) (out : GetStateOut)
    (h : (getStateProcess uid raw).2 = Except.ok out) :
    getStateReplyUid raw = some uid := by
  unfold getStateProcess at h
  cases hu : getStateReplyUid raw with
  | none => rw [hu] at h; simp at h
  | some u =>
    rw [hu] at h
    by_cases he : u = uid
    · rw [he]
    · simp [he] at h

/-- On a decoded reply uid different from the requested one (with the id part
present, which the code reads first), `getKnownRobotIds`'s reply processing
logs critically and exits with code 1. -/
theorem getKnownProcess_mismatch (uid u : Int) (raw : List Nat) (p1 : List Nat)
    (hu : knownIdsReplyUid raw = some u)
    (hp1 : (splitOnByte 124 raw).get? 1 = some p1) (hne : u ≠ uid) :
    getKnownProcess uid raw =
      ([Event.logCritical "received the state from the wrong robot"],
        Except.error (PyErr.systemExit 1)) := by
  obtain ⟨p0, h0, hparse⟩ := Option.bind_eq_some.mp hu
  rw [List.get?_eq_getElem?] at hp1
  unfold getKnownProcess
  rw [h0]
  simp [hparse, hp1, hne]

/-- `getKnownRobotIds`'s reply processing returns a value only when the
decoded reply uid is the requested one. -/
theorem getKnownProcess_ok_uid (uid : Int) (raw : List Nat) (ids : List Int)
    (h : (getKnownProcess uid raw).2 = Except.ok ids) :
    knownIdsReplyUid raw = some uid := by
  unfold getKnownProcess at h
  cases h0 : (splitOnByte 124 raw).get? IndexSignalReceive.uid with
  | none => rw [h0] at h; simp at h
  | some p0 =>
    rw [h0] at h
    cases hparse : parsePyInt p0 with
    | none => simp [hparse] at h
    | some u =>
      cases hp1 : (splitOnByte 124 raw)[1]? with
      | none => simp [hparse, hp1] at h
      | some p1 =>
        by_cases he : u = uid
        · rw [he] at hparse
          unfold knownIdsReplyUid
          rw [h0]
          simpa using hparse
        · simp [hparse, hp1, he] at h

/-- C3: reply-uid mismatch is handled only by logging and process exit: when
the decoded reply uid differs from the requested uid, `getState`
(respectively `getKnownRobotIds`, whose id part is read before the check)
logs a critical message and exits with code 1; and either method returns a
value only when the decoded reply uid equals the requested uid. -/
theorem uid_mismatch_logged_and_exits
    (reads : Nat → ReadResult) (uid : Int) (fuel : Nat) (raw : List Nat)
    (hr : (waitForCmdReply reads fuel).2 = some raw) :
    (∀ u, getStateReplyUid raw = some u → u ≠ uid →
      (getState reads uid fuel).2 = Except.error (PyErr.systemExit 1) ∧
      Event.logCritical "received the state from the wrong robot" ∈
        (getState reads uid fuel).1) ∧
    (∀ out, (getState reads uid fuel).2 = Except.ok out →
      getStateReplyUid raw = some uid) ∧
    (∀ u p1, knownIdsReplyUid raw = some u →
      (splitOnByte 124 raw).get? 1 = some p1 → u ≠ uid →
      (getKnownRobotIds reads uid fuel).2 = Except.error (PyErr.systemExit 1) ∧
      Event.logCritical "received the state from the wrong robot" ∈
        (getKnownRobotIds reads uid fuel).1) ∧
    (∀ ids, (getKnownRobotIds reads uid fuel).2 = Except.ok ids →
      knownIdsReplyUid raw = some uid) := by
  rw [getState_eq_of_reply reads uid fuel raw hr,
    getKnown_eq_of_reply reads uid fuel raw hr]
  refine ⟨?_, ?_, ?_, ?_⟩
  · intro u hu hne
    rw [getStateProcess_mismatch uid u raw hu hne]
    simp
  · intro out h
    exact getStateProcess_ok_uid uid raw out h
  · intro u p1 hu hp1 hne
    rw [getKnownProcess_mismatch uid u raw p1 hu hp1 hne]
    simp
  · intro ids h
    exact getKnownProcess_ok_uid uid raw ids h

/-- C3 witness: the oracle `exReads1` replies as robot 1; requesting robot 0
from `getState` exits with code 1 after a critical log. -/
theorem uid_mismatch_witness :
    (waitForCmdReply exReads1 1).2 = some exReply1 ∧
    getStateReplyUid exReply1 = some 1 ∧
    ((getState exReads1 0 1).2 = Except.error (PyErr.systemExit 1) ∧
      Event.logCritical "received the state from the wrong robot" ∈
        (getState exReads1 0 1).1) :=
  ⟨by decide, by decide,
   (uid_mismatch_logged_and_exits exReads1 0 1 exReply1 (by decide)).1 1
     (by decide) (by decide)⟩

/-- Assigning a fresh key into a Python dict appends the pair. -/
theorem dictInsert_append (d : List (Int × Int)) (k v : Int)
    (h : k ∉ d.map Prod.fst) :
    dictInsert d k v = d ++ [(k, v)] := by
  unfold dictInsert
  rw [if_neg]
  simpa using h

/-- The dict comprehension of `getState`, run over fresh pairwise-distinct
keys with all values present, appends the zipped key-value pairs in order. -/
theorem buildLoop_ok (recv : List (List Int)) (vals : List Int)
    (hv : recv.get? 2 = some vals) :
    ∀ (ks : List Int) (i : Nat) (d : List (Int × Int)),
      i + ks.length ≤ vals.length → ks.Nodup →
      (∀ k, k ∈ ks → k ∉ d.map Prod.fst) →
      buildLoop recv ks i d = Except.ok (d ++ ks.zip (vals.drop i)) := by
  intro ks
  induction ks with
  | nil =>
    intro i d _ _ _
    simp [buildLoop]
  | cons k ks ih =>
    intro i d hlen hnd hnew
    have hi : i < vals.length := by
      simp only [List.length_cons] at hlen
      omega
    have hval : vals.get? i = some vals[i] := by
      rw [List.get?_eq_getElem?]
      exact List.getElem?_eq_getElem hi
    unfold buildLoop
    rw [hv]
    simp only [Option.some_bind, hval]
    rw [dictInsert_append d k (vals[i]) (hnew k (List.mem_cons_self k ks))]
    rw [ih (i + 1) (d ++ [(k, vals[i])]) (by simp only [List.length_cons] at hlen; omega)
      hnd.of_cons ?_]
    · rw [List.drop_eq_getElem_cons hi, List.zip_cons_cons, List.append_assoc]
      rfl
    · intro k' hk'
      have h1 : k' ∉ d.map Prod.fst := hnew k' (List.mem_cons_of_mem k hk')
      have h2 : k' ≠ k := fun he => (List.nodup_cons.mp hnd).1 (he ▸ hk')
      simp [h1, h2]

/-- Deleting a key present among pairwise-distinct zipped keys filters its
pair out. -/
theorem pyDictDel_zip (keys vals : List Int) (uid : Int)
    (hlen : keys.length ≤ vals.length) (hmem : uid ∈ keys) :
    pyDictDel (keys.zip vals) uid =
      Except.ok ((keys.zip vals).filter (fun p => p.1 != uid)) := by
  unfold pyDictDel
  rw [if_pos]
  rw [List.map_fst_zip keys vals hlen]
  simpa using hmem

/-- A lookup of `uid` fails on a list all of whose keys differ from `uid`. -/
theorem lookup_none_of_keys_ne (uid : Int) :
    ∀ l : List (Int × Int), (∀ q, q ∈ l → q.1 ≠ uid) → l.lookup uid = none := by
  intro l
  induction l with
  | nil => intro _; rfl
  | cons p l ih =>
    intro h
    obtain ⟨k, v⟩ := p
    have h1 : k ≠ uid := h (k, v) (List.mem_cons_self (k, v) l)
    have hq : (uid == k) = false := by
      simp only [beq_eq_false_iff_ne]
      exact Ne.symm h1
    rw [List.lookup, hq]
    exact ih (fun q hql => h q (List.mem_cons_of_mem (k, v) hql))

/-- A lookup of `uid` fails on a list filtered to keys different from
`uid`. -/
theorem lookup_filter_ne_none (uid : Int) (l : List (Int × Int)) :
    (l.filter (fun p => p.1 != uid)).lookup uid = none := by
  apply lookup_none_of_keys_ne
  intro q hq
  exact bne_iff_ne.mp (List.mem_filter.mp hq).2

/-- C4: on a reply of exactly three parts whose decode succeeds (reply uid
equal to the requested one, distance keys pairwise distinct, one value per
key, requested uid among the keys), `getState(uid)` returns the dictionary
with exactly the keys `uid`, `light` and `distances`, where `distances` maps
the i-th unpacked distance key to the i-th unpacked distance value and the
entry of the requested uid is removed. -/
theorem getState_builds_distances_dictionary
    (reads : Nat → ReadResult) (uid : Int) (fuel : Nat) (raw : List Nat)
    (r0 : List Int) (light : Int) (keys vals : List Int)
    (hr : (waitForCmdReply reads fuel).2 = some raw)
    (h3 : (splitOnByte 124 raw).length = 3)
    (hr0 : ((splitOnByte 124 raw).map simxUnpackInts).get? 0 = some r0)
    (hu : r0.get? IndexSignalReceive.uid = some uid)
    (hl : r0.get? IndexSignalReceive.ambient_light = some light)
    (hk : ((splitOnByte 124 raw).map simxUnpackInts).get? 1 = some keys)
    (hv : ((splitOnByte 124 raw).map simxUnpackInts).get? 2 = some vals)
    (hlen : keys.length = vals.length)
    (hnd : keys.Nodup)
    (hmem : uid ∈ keys) :
    (getState reads uid fuel).2 =
      Except.ok ⟨uid, light, (keys.zip vals).filter (fun p => p.1 != uid)⟩ ∧
    ((keys.zip vals).filter (fun p => p.1 != uid)).lookup uid = none ∧
    (∀ i, i < keys.length → keys.getD i 0 ≠ uid →
      (keys.getD i 0, vals.getD i 0) ∈
        (keys.zip vals).filter (fun p => p.1 != uid)) := by
  have hgu : getStateReplyUid raw = some uid := by
    unfold getStateReplyUid
    rw [hr0]
    simpa using hu
  have hbd : buildDistances ((splitOnByte 124 raw).map simxUnpackInts) =
      Except.ok (keys.zip vals) := by
    unfold buildDistances
    rw [hk]
    have hb := buildLoop_ok ((splitOnByte 124 raw).map simxUnpackInts) vals hv keys 0 []
      (by omega) hnd (by simp)
    simpa using hb
  refine ⟨?_, lookup_filter_ne_none uid (keys.zip vals), ?_⟩
  · rw [getState_eq_of_reply reads uid fuel raw hr]
    unfold getStateProcess
    rw [hgu]
    simp only [if_pos rfl, hbd]
    rw [pyDictDel_zip keys vals uid (le_of_eq hlen) hmem]
    rw [hr0]
    rw [List.get?_eq_getElem?] at hl
    simp [hl]
  · intro i hi hne
    have hiv : i < vals.length := hlen ▸ hi
    have hk_i : keys.getD i 0 = keys[i] := List.getD_eq_getElem keys 0 hi
    have hv_i : vals.getD i 0 = vals[i] := List.getD_eq_getElem vals 0 hiv
    rw [hk_i] at hne ⊢
    rw [hv_i]
    rw [List.mem_filter]
    have hz : i < (keys.zip vals).length := by
      rw [List.length_zip]
      omega
    constructor
    · have he : (keys.zip vals)[i] = (keys[i], vals[i]) := List.getElem_zip
      rw [← he]
      exact List.getElem_mem hz
    · exact bne_iff_ne.mpr hne

/-- C4 witness: on the concrete reply `exReply1` (uid 1, light 7, keys
`[1, 2]`, values `[0, 5]`), `getState(1)` returns uid 1, light 7 and the
distances dictionary `[(2, 5)]`. -/
theorem getState_distances_witness :
    (waitForCmdReply exReads1 1).2 = some exReply1 ∧
    (splitOnByte 124 exReply1).length = 3 ∧
    ((splitOnByte 124 exReply1).map simxUnpackInts).get? 0 = some [1, 7] ∧
    ((splitOnByte 124 exReply1).map simxUnpackInts).get? 1 = some [1, 2] ∧
    ((splitOnByte 124 exReply1).map simxUnpackInts).get? 2 = some [0, 5] ∧
    (getState exReads1 1 1).2 =
      Except.ok ⟨1, 7, ([(1, 0), (2, 5)] : List (Int × Int)).filter
        (fun p => p.1 != 1)⟩ :=
  ⟨by decide, by decide, by decide, by decide, by decide,
   (getState_builds_distances_dictionary exReads1 1 1 exReply1 [1, 7] 7 [1, 2] [0, 5]
     (by decide) (by decide) (by decide) (by decide) (by decide) (by decide)
     (by decide) (by decide) (by decide) (by decide)).1⟩

/-- C10: with the reply uid parsed equal to the requested uid and the id part
present, `getKnownRobotIds(uid)` requires `uid` to occur in the unpacked id
list: when it occurs, the returned list is the id list with its first
occurrence removed and the remaining order preserved (a sublist), and a
single occurrence leaves no `uid` in the result; when it does not occur, the
call raises `ValueError` instead of returning. -/
theorem getKnownRobotIds_removes_requested_uid
    (reads : Nat → ReadResult) (uid : Int) (fuel : Nat) (raw : List Nat)
    (p1 : List Nat)
    (hr : (waitForCmdReply reads fuel).2 = some raw)
    (hu : knownIdsReplyUid raw = some uid)
    (hp1 : (splitOnByte 124 raw).get? 1 = some p1) :
    (uid ∈ simxUnpackInts p1 →
      (getKnownRobotIds reads uid fuel).2 =
        Except.ok ((simxUnpackInts p1).erase uid) ∧
      List.Sublist ((simxUnpackInts p1).erase uid) (simxUnpackInts p1) ∧
      ((simxUnpackInts p1).count uid = 1 →
        uid ∉ (simxUnpackInts p1).erase uid)) ∧
    (uid ∉ simxUnpackInts p1 →
      (getKnownRobotIds reads uid fuel).2 = Except.error PyErr.valueError) := by
  rw [getKnown_eq_of_reply reads uid fuel raw hr]
  obtain ⟨p0, h0, hparse⟩ := Option.bind_eq_some.mp hu
  rw [List.get?_eq_getElem?] at hp1
  constructor
  · intro hmem
    have hrem : pyListRemove (simxUnpackInts p1) uid =
        Except.ok ((simxUnpackInts p1).erase uid) := by
      unfold pyListRemove
      rw [if_pos]
      simpa using hmem
    refine ⟨?_, List.erase_sublist uid (simxUnpackInts p1), ?_⟩
    · unfold getKnownProcess
      rw [h0]
      simp [hparse, hp1, hrem]
    · intro hc
      have hz : ((simxUnpackInts p1).erase uid).count uid = 0 := by
        rw [List.count_erase_self, hc]
      exact List.count_eq_zero.mp hz
  · intro hmem
    have hrem : pyListRemove (simxUnpackInts p1) uid =
        Except.error PyErr.valueError := by
      unfold pyListRemove
      rw [if_neg]
      simpa using hmem
    unfold getKnownProcess
    rw [h0]
    simp [hparse, hp1, hrem]

/-- C10 witness: on the concrete reply `exReply2` (uid `1` in ASCII, id list
`[1, 2, 3]`), `getKnownRobotIds(1)` returns `[2, 3]`. -/
theorem getKnownRobotIds_removes_witness :
    (waitForCmdReply exReads2 1).2 = some exReply2 ∧
    knownIdsReplyUid exReply2 = some 1 ∧
    (splitOnByte 124 exReply2).get? 1 = some (simxPackInts [1, 2, 3]) ∧
    (1 : Int) ∈ simxUnpackInts (simxPackInts [1, 2, 3]) ∧
    (getKnownRobotIds exReads2 1 1).2 =
      Except.ok ((simxUnpackInts (simxPackInts [1, 2, 3])).erase 1) :=
  ⟨by decide, by decide, by decide, by decide,
   ((getKnownRobotIds_removes_requested_uid exReads2 1 1 exReply2
      (simxPackInts [1, 2, 3]) (by decide) (by decide) (by decide)).1
      (by decide)).1⟩

/-- With a nonzero robot count, `getClonePosRot` raises nothing and returns
a position-rotation pair. -/
theorem getClonePosRot_ok_of_nr_ne_zero (pi : ℚ) (sin cos : ℚ → ℚ)
    (stepNr nr : Int) (spawnType : Int) (h : nr ≠ 0) :
    ∃ pr, getClonePosRot pi sin cos stepNr nr spawnType = Except.ok pr := by
  unfold getClonePosRot
  by_cases h1 : spawnType = SpawnType.ox_plus
  · rw [if_pos h1]
    exact ⟨_, rfl⟩
  · rw [if_neg h1]
    by_cases h2 : spawnType = SpawnType.oy_plus
    · rw [if_pos h2]
      exact ⟨_, rfl⟩
    · rw [if_neg h2]
      by_cases h3 : spawnType = SpawnType.circular
      · rw [if_pos h3, if_neg h]
        exact ⟨_, rfl⟩
      · rw [if_neg h3]
        exact ⟨_, rfl⟩

/-- The loop of `spawnRobots` over `k` remaining iterations starting at step
`i`: when every copy-paste returns a handle and every placement computation
returns, it appends one clone handle per iteration in order, performs one
copy-paste per iteration, and places each clone with the pair returned by
`getClonePosRot`. -/
theorem spawnLoop_spec (env : SpawnEnv) (pi : ℚ) (sin cos : ℚ → ℚ)
    (spawnType : Int) (nr : Int) (srcH : Int) :
    ∀ (k i : Nat) (handles : List Int),
      (∀ j, i ≤ j → j < i + k → env.copyPasteResults j ≠ []) →
      (∀ j, i ≤ j → j < i + k →
        ∃ pr, getClonePosRot pi sin cos (j : Int) nr spawnType = Except.ok pr) →
      (spawnLoop env pi sin cos spawnType nr srcH i k handles).2 =
        Except.ok (handles ++ (List.range' i k).map
          (fun j => (env.copyPasteResults j).headI)) ∧
      (spawnLoop env pi sin cos spawnType nr srcH i k handles).1.filter
          isCopyPasteEvent =
        (List.range' i k).map (fun j => Event.copyPaste (env.copyPasteResults j)) ∧
      (∀ j, i ≤ j → j < i + k → ∀ pos rot,
        getClonePosRot pi sin cos (j : Int) nr spawnType = Except.ok (pos, rot) →
        Event.setObjectPosition ((env.copyPasteResults j).headI) srcH pos ∈
          (spawnLoop env pi sin cos spawnType nr srcH i k handles).1 ∧
        Event.setObjectOrientation ((env.copyPasteResults j).headI)
            ((env.copyPasteResults j).headI) rot ∈
          (spawnLoop env pi sin cos spawnType nr srcH i k handles).1) := by
  intro k
  induction k with
  | zero =>
    intro i handles _ _
    refine ⟨by simp [spawnLoop], by simp [spawnLoop], ?_⟩
    intro j h1 h2
    omega
  | succ k ih =>
    intro i handles h hok
    have hne : env.copyPasteResults i ≠ [] := h i (le_refl i) (by omega)
    have hget : (env.copyPasteResults i).get? 0 =
        some (env.copyPasteResults i).headI := by
      cases hcp : env.copyPasteResults i with
      | nil => exact absurd hcp hne
      | cons a l => rfl
    obtain ⟨pri, hpri⟩ := hok i (le_refl i) (by omega)
    have hstep : spawnLoop env pi sin cos spawnType nr srcH i (k + 1) handles =
        (Event.copyPaste (env.copyPasteResults i) ::
          Event.setObjectPosition (env.copyPasteResults i).headI srcH pri.1 ::
          Event.setObjectOrientation (env.copyPasteResults i).headI
            (env.copyPasteResults i).headI pri.2 ::
          (spawnLoop env pi sin cos spawnType nr srcH (i + 1) k
            (handles ++ [(env.copyPasteResults i).headI])).1,
          (spawnLoop env pi sin cos spawnType nr srcH (i + 1) k
            (handles ++ [(env.copyPasteResults i).headI])).2) := by
      simp only [spawnLoop, hget, hpri]
    have h' : ∀ j, i + 1 ≤ j → j < (i + 1) + k → env.copyPasteResults j ≠ [] :=
      fun j h1 h2 => h j (by omega) (by omega)
    have hok' : ∀ j, i + 1 ≤ j → j < (i + 1) + k →
        ∃ pr, getClonePosRot pi sin cos (j : Int) nr spawnType = Except.ok pr :=
      fun j h1 h2 => hok j (by omega) (by omega)
    obtain ⟨ihv, ihf, ihm⟩ :=
      ih (i + 1) (handles ++ [(env.copyPasteResults i).headI]) h' hok'
    have hr' : List.range' i (k + 1) = i :: List.range' (i + 1) k := rfl
    refine ⟨?_, ?_, ?_⟩
    · rw [hstep]
      simp only [ihv, hr']
      simp [List.append_assoc]
    · rw [hstep, hr']
      simp [isCopyPasteEvent, ihf]
    · intro j h1 h2 pos rot hpr
      rw [hstep]
      by_cases hj : j = i
      · subst hj
        rw [hpri] at hpr
        have hpr' : pri = (pos, rot) := Except.ok.inj hpr
        rw [hpr']
        exact ⟨List.mem_cons_of_mem _ (List.mem_cons_self _ _),
          List.mem_cons_of_mem _ (List.mem_cons_of_mem _ (List.mem_cons_self _ _))⟩
      · obtain ⟨m1, m2⟩ := ihm j (by omega) (by omega) pos rot hpr
        exact ⟨List.mem_cons_of_mem _ (List.mem_cons_of_mem _
            (List.mem_cons_of_mem _ m1)),
          List.mem_cons_of_mem _ (List.mem_cons_of_mem _
            (List.mem_cons_of_mem _ m2))⟩

/-- C6: when every copy-paste returns at least one handle, `spawnRobots`
performs exactly `nr` copy-paste operations, appends exactly the `nr` new
clone handles to `clonedRobotHandles` in creation order, and places the
`i`-th clone with the position (relative to the source robot's handle) and
rotation pair returned by `getClonePosRot(i, nr, spawnType)`. -/
theorem spawnRobots_clones_and_places_each_robot
    (env : SpawnEnv) (pi : ℚ) (sin cos : ℚ → ℚ) (sourceRobotName : String)
    (nr : Nat) (spawnType : Int) (handles0 : List Int)
    (hne : ∀ i, i < nr → env.copyPasteResults i ≠ []) :
    (spawnRobots env pi sin cos sourceRobotName nr spawnType handles0).2 =
      Except.ok (handles0 ++ (List.range nr).map
        (fun i => (env.copyPasteResults i).headI)) ∧
    (spawnRobots env pi sin cos sourceRobotName nr spawnType handles0).1.filter
        isCopyPasteEvent =
      (List.range nr).map (fun i => Event.copyPaste (env.copyPasteResults i)) ∧
    ((spawnRobots env pi sin cos sourceRobotName nr spawnType handles0).1.filter
        isCopyPasteEvent).length = nr ∧
    (∀ i, i < nr →
      (∃ pr, getClonePosRot pi sin cos (i : Int) (nr : Int) spawnType =
        Except.ok pr) ∧
      ∀ pos rot,
        getClonePosRot pi sin cos (i : Int) (nr : Int) spawnType =
          Except.ok (pos, rot) →
        Event.setObjectPosition ((env.copyPasteResults i).headI)
            env.getObjectHandleResult pos ∈
          (spawnRobots env pi sin cos sourceRobotName nr spawnType handles0).1 ∧
        Event.setObjectOrientation ((env.copyPasteResults i).headI)
            ((env.copyPasteResults i).headI) rot ∈
          (spawnRobots env pi sin cos sourceRobotName nr spawnType handles0).1) := by
  have hok : ∀ j, 0 ≤ j → j < 0 + nr →
      ∃ pr, getClonePosRot pi sin cos (j : Int) (nr : Int) spawnType =
        Except.ok pr := by
    intro j h1 h2
    refine getClonePosRot_ok_of_nr_ne_zero pi sin cos (j : Int) (nr : Int)
      spawnType ?_
    have hpos : nr ≠ 0 := by omega
    exact_mod_cast hpos
  obtain ⟨hv, hf, hm⟩ := spawnLoop_spec env pi sin cos spawnType (nr : Int)
    env.getObjectHandleResult nr 0 handles0 (fun j h1 h2 => hne j (by omega)) hok
  have hsp : spawnRobots env pi sin cos sourceRobotName nr spawnType handles0 =
      (Event.getObjectHandle sourceRobotName ::
        (spawnLoop env pi sin cos spawnType (nr : Int)
          env.getObjectHandleResult 0 nr handles0).1,
        (spawnLoop env pi sin cos spawnType (nr : Int)
          env.getObjectHandleResult 0 nr handles0).2) := rfl
  have hflt : (Event.getObjectHandle sourceRobotName ::
      (spawnLoop env pi sin cos spawnType (nr : Int)
        env.getObjectHandleResult 0 nr handles0).1).filter isCopyPasteEvent =
      (List.range nr).map (fun i => Event.copyPaste (env.copyPasteResults i)) := by
    rw [List.range_eq_range' nr]
    simpa [isCopyPasteEvent] using hf
  rw [hsp]
  refine ⟨?_, hflt, ?_, ?_⟩
  · rw [List.range_eq_range' nr]
    simpa using hv
  · rw [hflt]
    simp
  · intro i hi
    refine ⟨hok i (by omega) (by omega), ?_⟩
    intro pos rot hpr
    obtain ⟨m1, m2⟩ := hm i (by omega) (by omega) pos rot hpr
    exact ⟨List.mem_cons_of_mem _ m1, List.mem_cons_of_mem _ m2⟩

/-- C6 witness: two clones of source handle 10 with `ox_plus` dispersion;
the handle list gains `[100, 101]` and two copy-pastes happen. -/
theorem spawnRobots_clones_witness :
    (∀ i, i < 2 → exSpawnEnv.copyPasteResults i ≠ []) ∧
    (spawnRobots exSpawnEnv 0 (fun _ => 0) (fun _ => 0) "Kilobot#" 2
        SpawnType.ox_plus []).2 =
      Except.ok (([] : List Int) ++ (List.range 2).map
        (fun i => (exSpawnEnv.copyPasteResults i).headI)) ∧
    ((spawnRobots exSpawnEnv 0 (fun _ => 0) (fun _ => 0) "Kilobot#" 2
        SpawnType.ox_plus []).1.filter isCopyPasteEvent).length = 2 :=
  ⟨by decide,
   (spawnRobots_clones_and_places_each_robot exSpawnEnv 0 (fun _ => 0) (fun _ => 0)
      "Kilobot#" 2 SpawnType.ox_plus [] (by decide)).1,
   (spawnRobots_clones_and_places_each_robot exSpawnEnv 0 (fun _ => 0) (fun _ => 0)
      "Kilobot#" 2 SpawnType.ox_plus [] (by decide)).2.2.1⟩
